import Mathlib

/-!
Verification of the request-construction and validation layer of the sdcli
Stable Diffusion client (package stability).  The definitions below are a
shallow embedding of the Go source: Go strings become Lean Strings, Go ints
become Int, the float32 Strength field is modelled exactly as a rational,
fallible operations return Option or Except, and the multipart body is
modelled as the ordered list of (field name, field value) pairs that
multipart.Writer receives (the random boundary token is below this level of
abstraction).  The HTTP transport is modelled as the single response the
remote server would give, so that the number of outbound requests issued by
an invocation is an explicit, provable quantity.
-/

/-- Embeds the AspectRatio struct of pkg/stability/aspect_ratio.go:
a pair of Go ints naming a ratio such as 16:9. -/
structure AspectRatio where
  Width : Int
  Height : Int
deriving DecidableEq, Repr

/-- Embeds AspectRatio.String: Sprintf of Width, a colon, and Height. -/
def AspectRatio.String (a : AspectRatio) : String :=
  toString a.Width ++ ":" ++ toString a.Height

/-- The fixed allow-list validAspectRatios of aspect_ratio.go. -/
def validAspectRatios : List AspectRatio :=
  [⟨1, 1⟩, ⟨16, 9⟩, ⟨21, 9⟩, ⟨2, 3⟩, ⟨3, 2⟩, ⟨4, 5⟩, ⟨5, 4⟩, ⟨9, 16⟩, ⟨9, 21⟩]

/-- The distinct failures AspectRatio.validate can return. -/
inductive AspectRatioError where
  | widthNotPositive (w : Int)
  | heightNotPositive (h : Int)
  | notSupported (shown : String)
deriving DecidableEq, Repr

/-- Embeds AspectRatio.validate of aspect_ratio.go: rejects a non-positive
width, then a non-positive height, then scans validAspectRatios for a member
with the same components and rejects the ratio when none matches. -/
def AspectRatio.validate (a : AspectRatio) : Option AspectRatioError :=
  if a.Width ≤ 0 then some (.widthNotPositive a.Width)
  else if a.Height ≤ 0 then some (.heightNotPositive a.Height)
  else if validAspectRatios.any fun v => v.Width == a.Width && v.Height == a.Height then
    none
  else some (.notSupported a.String)

/-- Embeds strings.Split(s, ":") on the character list: every colon is a
separator, so "a:b" gives ["a", "b"] and "16" gives ["16"]. -/
def splitCharsOnColon : List Char → List (List Char)
  | [] => [[]]
  | c :: rest =>
    if c = ':' then [] :: splitCharsOnColon rest
    else
      match splitCharsOnColon rest with
      | [] => [[c]]
      | h :: t => (c :: h) :: t

/-- strings.Split(s, ":") as a function on String. -/
def stringsSplitColon (s : String) : List String :=
  (splitCharsOnColon s.data).map fun cs => String.mk cs

/-- The decimal value of a digit character, or none for a non-digit. -/
def digitValue (c : Char) : Option Nat :=
  if '0' ≤ c ∧ c ≤ '9' then some (c.toNat - '0'.toNat) else none

/-- Accumulates a run of decimal digits; any non-digit is a syntax error. -/
def parseDigitsAux (acc : Nat) : List Char → Option Nat
  | [] => some acc
  | c :: rest =>
    match digitValue c with
    | none => none
    | some d => parseDigitsAux (acc * 10 + d) rest

/-- A non-empty all-digit character list read as a Nat; none otherwise. -/
def parseDigits (cs : List Char) : Option Nat :=
  if cs.isEmpty then none else parseDigitsAux 0 cs

/-- Embeds strconv.Atoi: an optional sign followed by at least one decimal
digit; anything else is a syntax error.  (Overflow of the machine int cannot
occur for the small ratios this client parses and is not modelled.) -/
def strconvAtoi (s : String) : Option Int :=
  match s.data with
  | '+' :: rest => (parseDigits rest).map fun n => (n : Int)
  | '-' :: rest => (parseDigits rest).map fun n => -(n : Int)
  | cs => (parseDigits cs).map fun n => (n : Int)

/-- The distinct failures ParseAspectRatio can return. -/
inductive ParseAspectRatioError where
  | wrongPartCount
  | widthNotInteger
  | heightNotInteger
deriving DecidableEq, Repr

/-- Embeds ParseAspectRatio of aspect_ratio.go: split on colons, require
exactly two parts, then Atoi each part into the Width and Height fields. -/
def ParseAspectRatio (ratio : String) : Except ParseAspectRatioError AspectRatio :=
  match stringsSplitColon ratio with
  | [w, h] =>
    match strconvAtoi w with
    | none => .error .widthNotInteger
    | some wi =>
      match strconvAtoi h with
      | none => .error .heightNotInteger
      | some hi => .ok ⟨wi, hi⟩
  | _ => .error .wrongPartCount

/-- Embeds the Prompt string type of pkg/stability (prompt.go). -/
abbrev Prompt := String

/-- Alias for Prompt, needed where a field named Prompt shadows the type
name inside the Generate3Request structure declaration. -/
abbrev PromptString := Prompt

/-- The failure Prompt.Validate can return (ErrPromptTooLong). -/
inductive PromptError where
  | tooLong (len : Nat)
deriving DecidableEq, Repr

/-- Embeds Prompt.Validate: Go len() is the UTF-8 byte length, and a prompt
longer than 10000 bytes is rejected. -/
def Prompt.Validate (p : Prompt) : Option PromptError :=
  if p.utf8ByteSize > 10000 then some (.tooLong p.utf8ByteSize) else none

/-- Embeds the Strength float32 type of pkg/stability (strength.go) as the
exact rational value of the float. -/
abbrev Strength := ℚ

/-- The failure Strength.Validate can return (ErrStrengthOutOfRange). -/
inductive StrengthError where
  | outOfRange
deriving DecidableEq, Repr

/-- Embeds Strength.Validate: a strength below 0 or above 1 is rejected. -/
def Strength.Validate (s : Strength) : Option StrengthError :=
  if s < 0 ∨ s > 1 then some .outOfRange else none

/-- Embeds the SD3Model string type of pkg/stability/sd3.go. -/
abbrev SD3Model := String

/-- The sd3-medium model constant. -/
def SD3Medium : SD3Model := "sd3-medium"

/-- The sd3-large model constant. -/
def SD3Large : SD3Model := "sd3-large"

/-- The sd3-large-turbo model constant. -/
def SD3LargeTurbo : SD3Model := "sd3-large-turbo"

/-- AllSD3Models of sd3.go: the three known model identifiers. -/
def AllSD3Models : List SD3Model := [SD3Medium, SD3Large, SD3LargeTurbo]

/-- Embeds SD3Model.exists: a linear scan of AllSD3Models. -/
def SD3Model.existsKnown (s : SD3Model) : Bool :=
  AllSD3Models.any fun m => s == m

/-- The distinct failures Generate3Request.validate can return, one per
error message in sd3.go. -/
inductive ValidationError where
  | promptEmpty
  | promptInvalid (e : PromptError)
  | negativePromptInvalid (e : PromptError)
  | invalidAspectRatio (shown : String)
  | unknownModel (m : SD3Model)
deriving DecidableEq, Repr

/-- Embeds SD3Model.validate: an identifier absent from AllSD3Models is
rejected with ErrUnknownModel. -/
def SD3Model.validate (s : SD3Model) : Option ValidationError :=
  if s.existsKnown then none else some (.unknownModel s)

/-- Embeds the Generate3Request struct of sd3.go.  The Image io.Reader is
modelled as the byte stream it yields when read to exhaustion; none models
the nil reader of a request built with no reference image. -/
structure Generate3Request where
  AspectRatio : AspectRatio
  Prompt : Prompt
  Model : SD3Model
  OutputFormat : String
  NegativePrompt : PromptString
  Strength : Strength
  Image : Option String
deriving DecidableEq, Repr

/-- Embeds Generate3Request.validate of sd3.go, in source order: empty
prompt, Prompt.Validate wrapped as a prompt failure, NegativePrompt.Validate
wrapped as a negative-prompt failure, a zero aspect-ratio component, then
Model.validate, whose result is returned directly. -/
def Generate3Request.validate (g : Generate3Request) : Option ValidationError :=
  if g.Prompt = "" then some .promptEmpty
  else
    match Prompt.Validate g.Prompt with
    | some e => some (.promptInvalid e)
    | none =>
      match Prompt.Validate g.NegativePrompt with
      | some e => some (.negativePromptInvalid e)
      | none =>
        if g.AspectRatio.Width = 0 ∨ g.AspectRatio.Height = 0 then
          some (.invalidAspectRatio g.AspectRatio.String)
        else
          g.Model.validate

/-- Rounds a rational to the nearest integer, ties to even. -/
def roundTiesToEven (q : ℚ) : Int :=
  let f := ⌊q⌋
  let r := q - (f : ℚ)
  if r < 1 / 2 then f
  else if 1 / 2 < r then f + 1
  else if f % 2 = 0 then f else f + 1

/-- A natural number of hundredths printed as a fixed-point decimal with two
digits after the point, e.g. 50 prints as 0.50. -/
def fixedPointTwo (m : Nat) : String :=
  Nat.repr (m / 100) ++ "." ++
    (if m % 100 < 10 then "0" ++ Nat.repr (m % 100) else Nat.repr (m % 100))

/-- Embeds strconv.FormatFloat(float64(s), 102, 2, 32) of sd3.go (the
fixed-format verb, precision 2) on the exact rational value of the float32:
the value correctly rounded to hundredths, ties to even, printed with two
digits after the decimal point.  The sign a float keeps when a tiny negative
value rounds to zero is not modelled; no claim exercises it. -/
def strconvFormatFloatF2 (s : Strength) : String :=
  let n := roundTiesToEven (s * 100)
  if n < 0 then "-" ++ fixedPointTwo n.natAbs else fixedPointTwo n.natAbs

/-- The ordered (name, value) pairs Generate3Request.toFormData hands to the
multipart writer when the image reader yields imageBytes: aspect_ratio and
prompt always; model, output_format and negative_prompt only when non-empty;
strength only when non-zero, formatted to two decimals; then the image field
holding the copied reader contents. -/
def Generate3Request.formFields (g : Generate3Request) (imageBytes : String) :
    List (String × String) :=
  [("aspect_ratio", g.AspectRatio.String), ("prompt", g.Prompt)]
    ++ (if g.Model ≠ "" then [("model", g.Model)] else [])
    ++ (if g.OutputFormat ≠ "" then [("output_format", g.OutputFormat)] else [])
    ++ (if g.NegativePrompt ≠ "" then [("negative_prompt", g.NegativePrompt)] else [])
    ++ (if g.Strength ≠ 0 then [("strength", strconvFormatFloatF2 g.Strength)] else [])
    ++ [("image", imageBytes)]

/-- Embeds Generate3Request.toFormData of sd3.go.  io.Copy from the nil
reader of an absent image dereferences a nil interface and the serialization
never completes, modelled as none; otherwise the completed body holds the
fields of formFields in that order. -/
def Generate3Request.toFormData (g : Generate3Request) : Option (List (String × String)) :=
  match g.Image with
  | none => none
  | some bs => some (g.formFields bs)

/-- The HTTP response the remote server would give to the one request an
invocation can issue. -/
structure HttpResponse where
  status : Nat
  body : String
deriving DecidableEq, Repr

/-- The ways Client.Generate3 can resolve, one per return path in
client.go. -/
inductive Generate3Result where
  | invalidRequest (e : ValidationError)
  | formDataFault
  | unexpectedStatus (status : Nat) (body : String)
  | success
deriving DecidableEq, Repr

/-- What an invocation of Client.Generate3 did: its result, how many
outbound HTTP requests it issued, and the bytes it wrote to the
caller-supplied output sink. -/
structure Generate3Outcome where
  result : Generate3Result
  requestsIssued : Nat
  written : String
deriving DecidableEq, Repr

/-- Embeds Client.Generate3 of client.go: validate first and abort on
failure before any network use; build the form body, aborting on a
serialization fault; then issue the single HTTP POST.  A non-200 status
reads the body for diagnostics, writes nothing to the sink and fails with
the status code and body text; a 200 status copies the body to the sink. -/
def Client.Generate3 (g : Generate3Request) (resp : HttpResponse) : Generate3Outcome :=
  match g.validate with
  | some e => ⟨.invalidRequest e, 0, ""⟩
  | none =>
    match g.toFormData with
    | none => ⟨.formDataFault, 0, ""⟩
    | some _ =>
      if resp.status ≠ 200 then ⟨.unexpectedStatus resp.status resp.body, 1, ""⟩
      else ⟨.success, 1, resp.body⟩

/-! Concrete requests used by the claim theorems, witnesses and
counterexamples below. -/

/-- Scenario A of the spec, with the reference image absent (nil reader). -/
def scenarioANoImage : Generate3Request :=
  { AspectRatio := ⟨1, 1⟩, Prompt := "a bear riding a unicycle", Model := SD3Large,
    OutputFormat := "png", NegativePrompt := "", Strength := 0, Image := none }

/-- Scenario A of the spec, with the reference image supplied as an empty
byte source. -/
def scenarioA : Generate3Request := { scenarioANoImage with Image := some "" }

/-- An otherwise valid request whose aspect ratio 3:5 is a pair of positive
integers outside the nine-element allow-list. -/
def reqRatio35 : Generate3Request := { scenarioA with AspectRatio := ⟨3, 5⟩ }

/-- An otherwise valid request whose strength 1.5 lies outside [0, 1]. -/
def reqStrength15 : Generate3Request := { scenarioA with Strength := 3 / 2 }

/-- A request with valid prompts, an unknown model, and a zero aspect
ratio. -/
def reqUnknownModelZeroRatio : Generate3Request :=
  { scenarioA with AspectRatio := ⟨0, 0⟩, Model := "sd3-ultra" }

/-- Membership in a one-element list guarded by a decidable condition. -/
theorem mem_ite_singleton {α : Type} (x a : α) (c : Prop) [Decidable c] :
    x ∈ (if c then [a] else ([] : List α)) ↔ c ∧ x = a := by
  by_cases hc : c <;> simp [hc]

/-- Claim C1 (code bug): the spec requires Validate() to reject every aspect
ratio outside the nine-element allow-list with the allow-list-violation
kind, and aspect_ratio.go provides AspectRatio.validate doing exactly that,
but Generate3Request.validate only compares the components against zero and
never invokes it: the positive off-list ratio 3:5 passes validation even
though AspectRatio.validate rejects it. -/
theorem allowlist_not_enforced_by_generate3_validate :
    Generate3Request.validate reqRatio35 = none
    ∧ AspectRatio.validate reqRatio35.AspectRatio
        = some (AspectRatioError.notSupported "3:5")
    ∧ 0 < reqRatio35.AspectRatio.Width ∧ 0 < reqRatio35.AspectRatio.Height := by
  exact ⟨rfl, rfl, by decide, by decide⟩

/-- Claim C2 (code bug): the spec requires strengths outside [0, 1] to fail
validation, and strength.go provides Strength.Validate doing exactly that,
but Generate3Request.validate never invokes it: a request with strength 1.5
passes validation even though Strength.Validate rejects that value. -/
theorem strength_not_checked_by_generate3_validate :
    Generate3Request.validate reqStrength15 = none
    ∧ Strength.Validate reqStrength15.Strength = some StrengthError.outOfRange := by
  exact ⟨rfl, by norm_num [Strength.Validate, reqStrength15]⟩

/-- Claim C3, counterexample: scenario A built with no reference image
passes validation, yet serialization does not succeed — toFormData copies
from the nil image reader and faults, so no body with an empty image field
is ever produced. -/
theorem nil_image_serialization_faults :
    Generate3Request.validate scenarioANoImage = none
    ∧ scenarioANoImage.Image = none
    ∧ Generate3Request.toFormData scenarioANoImage = none := by
  exact ⟨rfl, rfl, rfl⟩

/-- Claim C3, amended: when the reference image source is present but
empty, serialization succeeds and still creates the image field with zero
bytes; scenario A with an empty image source serializes to exactly the
fields aspect_ratio, prompt, model, output_format and an empty image. -/
theorem empty_image_source_serializes (g : Generate3Request) (h : g.Image = some "") :
    (∃ fields, Generate3Request.toFormData g = some fields ∧ ("image", "") ∈ fields)
    ∧ Generate3Request.toFormData scenarioA = some
        [("aspect_ratio", "1:1"), ("prompt", "a bear riding a unicycle"),
         ("model", "sd3-large"), ("output_format", "png"), ("image", "")] := by
  refine ⟨⟨g.formFields "", by simp [Generate3Request.toFormData, h], ?_⟩, rfl⟩
  simp [Generate3Request.formFields]

/-- Witness for the amended claim C3 at the concrete scenario A request. -/
theorem empty_image_source_serializes_witness :
    (∃ fields, Generate3Request.toFormData scenarioA = some fields
        ∧ ("image", "") ∈ fields)
    ∧ Generate3Request.toFormData scenarioA = some
        [("aspect_ratio", "1:1"), ("prompt", "a bear riding a unicycle"),
         ("model", "sd3-large"), ("output_format", "png"), ("image", "")] :=
  empty_image_source_serializes scenarioA rfl

/-- Claim C4: toFormData writes the multipart fields in the fixed order
aspect_ratio, prompt, model (only if non-empty), output_format (only if
non-empty), negative_prompt (only if non-empty), strength (only if
non-zero), then image.  Serialization is a pure function of the request, so
two calls with identical input produce the identical field sequence — the
only wire-level difference is the random boundary token, which lies below
this model of the body. -/
theorem toFormData_field_order (g : Generate3Request) (bs : String)
    (h : g.Image = some bs) :
    Generate3Request.toFormData g = some
      ([("aspect_ratio", g.AspectRatio.String), ("prompt", g.Prompt)]
        ++ (if g.Model ≠ "" then [("model", g.Model)] else [])
        ++ (if g.OutputFormat ≠ "" then [("output_format", g.OutputFormat)] else [])
        ++ (if g.NegativePrompt ≠ "" then [("negative_prompt", g.NegativePrompt)] else [])
        ++ (if g.Strength ≠ 0 then [("strength", strconvFormatFloatF2 g.Strength)] else [])
        ++ [("image", bs)]) := by
  simp [Generate3Request.toFormData, h, Generate3Request.formFields]

/-- Witness for claim C4 at the concrete scenario A request. -/
theorem toFormData_field_order_witness :
    Generate3Request.toFormData scenarioA = some
      [("aspect_ratio", "1:1"), ("prompt", "a bear riding a unicycle"),
       ("model", "sd3-large"), ("output_format", "png"), ("image", "")] :=
  toFormData_field_order scenarioA "" rfl

/-- Claim C5: for each of the nine allow-listed ratios, String() yields the
colon-delimited form and ParseAspectRatio maps that form back to the same
pair; parsing the malformed strings "16" and "a:b" fails. -/
theorem aspect_ratio_roundtrip :
    (⟨1, 1⟩ : AspectRatio).String = "1:1"
    ∧ ParseAspectRatio "1:1" = .ok ⟨1, 1⟩
    ∧ (⟨16, 9⟩ : AspectRatio).String = "16:9"
    ∧ ParseAspectRatio "16:9" = .ok ⟨16, 9⟩
    ∧ (⟨21, 9⟩ : AspectRatio).String = "21:9"
    ∧ ParseAspectRatio "21:9" = .ok ⟨21, 9⟩
    ∧ (⟨2, 3⟩ : AspectRatio).String = "2:3"
    ∧ ParseAspectRatio "2:3" = .ok ⟨2, 3⟩
    ∧ (⟨3, 2⟩ : AspectRatio).String = "3:2"
    ∧ ParseAspectRatio "3:2" = .ok ⟨3, 2⟩
    ∧ (⟨4, 5⟩ : AspectRatio).String = "4:5"
    ∧ ParseAspectRatio "4:5" = .ok ⟨4, 5⟩
    ∧ (⟨5, 4⟩ : AspectRatio).String = "5:4"
    ∧ ParseAspectRatio "5:4" = .ok ⟨5, 4⟩
    ∧ (⟨9, 16⟩ : AspectRatio).String = "9:16"
    ∧ ParseAspectRatio "9:16" = .ok ⟨9, 16⟩
    ∧ (⟨9, 21⟩ : AspectRatio).String = "9:21"
    ∧ ParseAspectRatio "9:21" = .ok ⟨9, 21⟩
    ∧ ParseAspectRatio "16" = .error .wrongPartCount
    ∧ ParseAspectRatio "a:b" = .error .widthNotInteger := by
  exact ⟨rfl, rfl, rfl, rfl, rfl, rfl, rfl, rfl, rfl, rfl,
         rfl, rfl, rfl, rfl, rfl, rfl, rfl, rfl, rfl, rfl⟩

/-- Setting the strength to zero drops exactly the strength entry from the
field sequence and leaves every other field unchanged: the zero value is the
"not supplied" encoding of the optional field. -/
theorem formFields_strength_zero_filter (g : Generate3Request) (bs : String) :
    Generate3Request.formFields { g with Strength := 0 } bs
      = (Generate3Request.formFields g bs).filter fun p => p.1 != "strength" := by
  have f1 : ((("aspect_ratio" : String) != "strength") : Bool) = true := rfl
  have f2 : ((("prompt" : String) != "strength") : Bool) = true := rfl
  have f3 : ((("model" : String) != "strength") : Bool) = true := rfl
  have f4 : ((("output_format" : String) != "strength") : Bool) = true := rfl
  have f5 : ((("negative_prompt" : String) != "strength") : Bool) = true := rfl
  have f6 : ((("strength" : String) != "strength") : Bool) = false := rfl
  have f7 : ((("image" : String) != "strength") : Bool) = true := rfl
  by_cases hM : g.Model = "" <;> by_cases hO : g.OutputFormat = "" <;>
    by_cases hN : g.NegativePrompt = "" <;> by_cases hS : g.Strength = 0 <;>
      simp [Generate3Request.formFields, hM, hO, hN, hS, List.filter_cons,
        f1, f2, f3, f4, f5, f6, f7]

/-- Claim C6: the strength field appears in the serialized body exactly when
Strength is non-zero; when present its value is the two-decimal fixed-point
rendering of the strength; and zeroing the strength yields the same body
with the strength entry removed and nothing else changed, so a strength of
exactly 0.0 is indistinguishable from an unsupplied strength. -/
theorem strength_field_present_iff_nonzero (g : Generate3Request)
    (fields : List (String × String))
    (h : Generate3Request.toFormData g = some fields) :
    ((∃ v, ("strength", v) ∈ fields) ↔ g.Strength ≠ 0)
    ∧ (g.Strength ≠ 0 → ("strength", strconvFormatFloatF2 g.Strength) ∈ fields)
    ∧ Generate3Request.toFormData { g with Strength := 0 }
        = some (fields.filter fun p => p.1 != "strength") := by
  cases hi : g.Image with
  | none => simp [Generate3Request.toFormData, hi] at h
  | some bs =>
    simp only [Generate3Request.toFormData, hi, Option.some.injEq] at h
    subst h
    refine ⟨?_, ?_, ?_⟩
    · constructor
      · rintro ⟨v, hv⟩
        simp [Generate3Request.formFields, List.mem_append, mem_ite_singleton,
          Prod.mk.injEq] at hv
        exact hv.1
      · intro hs
        refine ⟨strconvFormatFloatF2 g.Strength, ?_⟩
        simp [Generate3Request.formFields, List.mem_append, mem_ite_singleton, hs]
    · intro hs
      simp [Generate3Request.formFields, List.mem_append, mem_ite_singleton, hs]
    · have hz : ({ g with Strength := 0 } : Generate3Request).Image = some bs := hi
      simp only [Generate3Request.toFormData, hz, Option.some.injEq]
      exact formFields_strength_zero_filter g bs

/-- Scenario A augmented with a negative prompt and a strength of 0.5. -/
def scenarioAStrength : Generate3Request :=
  { scenarioA with NegativePrompt := "blurry", Strength := 1 / 2 }

/-- The field sequence scenarioAStrength serializes to. -/
def scenarioAStrengthFields : List (String × String) :=
  [("aspect_ratio", "1:1"), ("prompt", "a bear riding a unicycle"),
   ("model", "sd3-large"), ("output_format", "png"),
   ("negative_prompt", "blurry"), ("strength", "0.50"), ("image", "")]

/-- Witness for claim C6 at a concrete request with strength 0.5, whose
body renders the strength as 0.50. -/
theorem strength_field_present_iff_nonzero_witness :
    ((∃ v, ("strength", v) ∈ scenarioAStrengthFields)
        ↔ scenarioAStrength.Strength ≠ 0)
    ∧ (scenarioAStrength.Strength ≠ 0 →
        ("strength", strconvFormatFloatF2 scenarioAStrength.Strength)
          ∈ scenarioAStrengthFields)
    ∧ Generate3Request.toFormData { scenarioAStrength with Strength := 0 }
        = some (scenarioAStrengthFields.filter fun p => p.1 != "strength") :=
  strength_field_present_iff_nonzero scenarioAStrength scenarioAStrengthFields
    (by
      norm_num [Generate3Request.toFormData, Generate3Request.formFields,
        scenarioAStrength, scenarioA, scenarioANoImage, strconvFormatFloatF2,
        roundTiesToEven, fixedPointTwo, scenarioAStrengthFields]
      decide)

/-- Claim C7, counterexample: a request with a valid prompt and negative
prompt and the unknown model "sd3-ultra", but a 0:0 aspect ratio, fails
validation with the aspect-ratio kind, not the unknown-model kind — the
code checks the aspect-ratio components before model membership, opposite
to the order the claim states. -/
theorem unknown_model_with_zero_ratio_not_unknown_model_error :
    reqUnknownModelZeroRatio.Model ∉ AllSD3Models
    ∧ reqUnknownModelZeroRatio.Prompt ≠ ""
    ∧ Prompt.Validate reqUnknownModelZeroRatio.Prompt = none
    ∧ Prompt.Validate reqUnknownModelZeroRatio.NegativePrompt = none
    ∧ Generate3Request.validate reqUnknownModelZeroRatio
        = some (ValidationError.invalidAspectRatio "0:0")
    ∧ Generate3Request.validate reqUnknownModelZeroRatio
        ≠ some (ValidationError.unknownModel reqUnknownModelZeroRatio.Model) := by
  decide

/-- Claim C7, amended: for every request with a non-empty valid prompt, a
valid negative prompt, both aspect-ratio components non-zero, and a model
outside the three known identifiers, validation fails with the
unknown-model kind; the model check is the last of the sequential checks,
coming after (not before) the aspect-ratio component check. -/
theorem unknown_model_rejected (g : Generate3Request)
    (h1 : g.Prompt ≠ "") (h2 : Prompt.Validate g.Prompt = none)
    (h3 : Prompt.Validate g.NegativePrompt = none)
    (h4 : g.AspectRatio.Width ≠ 0) (h5 : g.AspectRatio.Height ≠ 0)
    (h6 : g.Model ∉ AllSD3Models) :
    Generate3Request.validate g = some (ValidationError.unknownModel g.Model) := by
  have hk : g.Model.existsKnown = false := by
    simp only [AllSD3Models, List.mem_cons, List.not_mem_nil, or_false, not_or] at h6
    simp [SD3Model.existsKnown, AllSD3Models, h6.1, h6.2.1, h6.2.2]
  simp [Generate3Request.validate, h1, h2, h3, h4, h5, SD3Model.validate, hk]

/-- Scenario A with the unknown model identifier "sd3-xl". -/
def reqUnknownModel : Generate3Request := { scenarioA with Model := "sd3-xl" }

/-- Witness for the amended claim C7 at a concrete request whose model
"sd3-xl" is not a known identifier. -/
theorem unknown_model_rejected_witness :
    Generate3Request.validate reqUnknownModel
      = some (ValidationError.unknownModel reqUnknownModel.Model) :=
  unknown_model_rejected reqUnknownModel (by decide) rfl rfl
    (by decide) (by decide) (by decide)

/-- Claim C8: every invocation validates first — a validation failure is
returned as-is with zero outbound requests issued — at most one request is
ever issued, and once validation and serialization pass exactly one request
is issued (no retries). -/
theorem validate_gates_single_request (g : Generate3Request) (resp : HttpResponse) :
    (∀ e, Generate3Request.validate g = some e →
        Client.Generate3 g resp
          = ⟨Generate3Result.invalidRequest e, 0, ""⟩)
    ∧ (Client.Generate3 g resp).requestsIssued ≤ 1
    ∧ (Generate3Request.validate g = none → Generate3Request.toFormData g ≠ none →
        (Client.Generate3 g resp).requestsIssued = 1) := by
  refine ⟨?_, ?_, ?_⟩
  · intro e he
    simp [Client.Generate3, he]
  · cases hv : Generate3Request.validate g with
    | some e => simp [Client.Generate3, hv]
    | none =>
      cases hf : Generate3Request.toFormData g with
      | none => simp [Client.Generate3, hv, hf]
      | some fd =>
        by_cases hs : resp.status = 200 <;> simp [Client.Generate3, hv, hf, hs]
  · intro hv hf
    cases hff : Generate3Request.toFormData g with
    | none => exact absurd hff hf
    | some fd =>
      by_cases hs : resp.status = 200 <;> simp [Client.Generate3, hv, hff, hs]

/-- Witness for claim C8: an invalid request resolves with zero requests
issued, and the valid scenario A request issues exactly one. -/
theorem validate_gates_single_request_witness :
    Client.Generate3 { scenarioA with Prompt := "" } ⟨200, "IMG"⟩
        = ⟨Generate3Result.invalidRequest ValidationError.promptEmpty, 0, ""⟩
    ∧ (Client.Generate3 scenarioA ⟨200, "IMG"⟩).requestsIssued = 1 :=
  ⟨(validate_gates_single_request { scenarioA with Prompt := "" } ⟨200, "IMG"⟩).1
      ValidationError.promptEmpty rfl,
   (validate_gates_single_request scenarioA ⟨200, "IMG"⟩).2.2 rfl (by decide)⟩

/-- Claim C9: once a response is received, a 200 status streams exactly the
response body to the output sink and resolves successfully, and any other
status writes nothing to the sink and fails carrying the status code and
the full response body text. -/
theorem response_status_mapping (g : Generate3Request) (resp : HttpResponse)
    (hv : Generate3Request.validate g = none) (bs : String) (hi : g.Image = some bs) :
    (resp.status = 200 →
        Client.Generate3 g resp = ⟨Generate3Result.success, 1, resp.body⟩)
    ∧ (resp.status ≠ 200 →
        Client.Generate3 g resp
          = ⟨Generate3Result.unexpectedStatus resp.status resp.body, 1, ""⟩) := by
  constructor <;> intro hs <;>
    simp [Client.Generate3, hv, Generate3Request.toFormData, hi, hs]

/-- Witness for claim C9: a 200 response and a 403 "invalid key" response to
the concrete scenario A request. -/
theorem response_status_mapping_witness :
    Client.Generate3 scenarioA ⟨200, "RAWIMAGEBYTES"⟩
        = ⟨Generate3Result.success, 1, "RAWIMAGEBYTES"⟩
    ∧ Client.Generate3 scenarioA ⟨403, "invalid key"⟩
        = ⟨Generate3Result.unexpectedStatus 403 "invalid key", 1, ""⟩ :=
  ⟨(response_status_mapping scenarioA ⟨200, "RAWIMAGEBYTES"⟩ rfl "" rfl).1 rfl,
   (response_status_mapping scenarioA ⟨403, "invalid key"⟩ rfl "" rfl).2 (by decide)⟩

/-- Claim C10: validation never inspects the OutputFormat field — replacing
it with any string, empty or outside the png/jpeg enum, leaves the
validation result unchanged — and an empty OutputFormat is silently omitted
from the serialized body. -/
theorem output_format_never_validated (g : Generate3Request) (s : String) :
    Generate3Request.validate { g with OutputFormat := s }
        = Generate3Request.validate g
    ∧ (∀ fields,
        Generate3Request.toFormData { g with OutputFormat := "" } = some fields →
        ∀ v, ("output_format", v) ∉ fields) := by
  constructor
  · rfl
  · intro fields hf v
    cases hi : g.Image with
    | none => simp [Generate3Request.toFormData, hi] at hf
    | some bs =>
      simp only [Generate3Request.toFormData, hi, Option.some.injEq] at hf
      subst hf
      simp [Generate3Request.formFields, List.mem_append, mem_ite_singleton,
        Prod.mk.injEq]

/-- The field sequence scenario A serializes to when OutputFormat is
empty. -/
def scenarioANoFormatFields : List (String × String) :=
  [("aspect_ratio", "1:1"), ("prompt", "a bear riding a unicycle"),
   ("model", "sd3-large"), ("image", "")]

/-- Witness for claim C10: scenario A validates identically with the
off-enum format "bmp", and with an empty format its body has no
output_format field. -/
theorem output_format_never_validated_witness :
    Generate3Request.validate { scenarioA with OutputFormat := "bmp" }
        = Generate3Request.validate scenarioA
    ∧ ("output_format", "png") ∉ scenarioANoFormatFields :=
  ⟨(output_format_never_validated scenarioA "bmp").1,
   (output_format_never_validated scenarioA "bmp").2 scenarioANoFormatFields rfl "png"⟩
